import Mathlib

/-!
Shallow embedding of the resilient HTTP request pipeline of
`src/examples/python/utils/api_client.py` (class `APIClient`), covering the
circuit breaker, rate limiter, retry loop of `_make_request`, and `get_stats`.

Time stamps and delays are modelled as rationals (the Python code uses floats
and `datetime` arithmetic; the claims only involve exact arithmetic on small
values, where float and rational agree). The transport layer is modelled as a
function from the attempt index to the attempt's result, so a run of
`_make_request` is a pure function of the client state, the clock value, and
that response sequence.
-/

/-- The three circuit-breaker states: `'closed'`, `'open'`, `'half-open'`
(`circuit_breaker_state` in the source; `open` is a Lean keyword, hence
`opened`). -/
inductive CBState where
  | closed
  | opened
  | halfOpen
deriving DecidableEq, Repr

/-- Circuit-breaker portion of the `APIClient` state:
`circuit_breaker_enabled`, `circuit_breaker_threshold`,
`circuit_breaker_timeout` (the cooldown, seconds), `circuit_breaker_state`,
`circuit_breaker_failure_count`, `circuit_breaker_last_failure_time`. -/
structure Breaker where
  enabled : Bool
  threshold : Nat
  cooldown : ℚ
  state : CBState
  failureCount : Nat
  lastFailureTime : Option ℚ
deriving DecidableEq, Repr

/-- `APIClient._check_circuit_breaker`, returning the updated breaker and
whether the request is admitted (`false` means the method raises
`APIError("Circuit breaker is open - requests blocked")`). In the source a
breaker in the `open` state transitions to `half-open` when
`now - last_failure_time > timedelta(seconds=circuit_breaker_timeout)` (strict
inequality); a `datetime` is always truthy, so the Python truthiness test on
`circuit_breaker_last_failure_time` is exactly the `Option` match. -/
def checkCircuitBreaker (cb : Breaker) (now : ℚ) : Breaker × Bool :=
  if !cb.enabled then (cb, true)
  else
    match cb.state with
    | .opened =>
        match cb.lastFailureTime with
        | some t =>
            if cb.cooldown < now - t then ({ cb with state := .halfOpen }, true)
            else (cb, false)
        | none => (cb, false)
    | .halfOpen => (cb, true)
    | .closed => (cb, true)

/-- `APIClient._update_circuit_breaker(success)`: on success while `half-open`
the breaker closes and the failure count resets to 0 (success in any other
state changes nothing); on failure the count increments, the last-failure time
refreshes to `now`, and the breaker opens when the count has reached the
threshold and the state is not already `open`. -/
def updateCircuitBreaker (cb : Breaker) (success : Bool) (now : ℚ) : Breaker :=
  if !cb.enabled then cb
  else if success then
    if cb.state = .halfOpen then { cb with state := .closed, failureCount := 0 }
    else cb
  else
    let cb' : Breaker :=
      { cb with failureCount := cb.failureCount + 1, lastFailureTime := some now }
    if cb'.threshold ≤ cb'.failureCount ∧ cb'.state ≠ .opened then
      { cb' with state := .opened }
    else cb'

/-- Rate-limiter portion of the `APIClient` state: `rate_limit_remaining` and
`rate_limit_reset` (server-derived, parsed as Python `int`s),
`rate_limit_requests` (the local window of request timestamps), and
`rate_limit_window` (60 in the source). -/
structure RateState where
  remaining : Option Int
  reset : Option Int
  requests : List ℚ
  window : ℚ
deriving DecidableEq, Repr

/-- `APIClient._check_rate_limit`: prunes window entries with
`now - req_time >= window`, then raises `APIRateLimitError` (modelled as the
Bool being `false`) when `remaining is not None and remaining <= 0 and reset
and now < reset`. Python truthiness of the integer `rate_limit_reset` makes a
stored reset of `0` falsy, hence the `t ≠ 0` conjunct. -/
def checkRateLimit (rl : RateState) (now : ℚ) : RateState × Bool :=
  let rl' : RateState :=
    { rl with requests := rl.requests.filter (fun t => now - t < rl.window) }
  let blocked : Bool :=
    match rl'.remaining, rl'.reset with
    | some r, some t => if r ≤ 0 ∧ t ≠ 0 ∧ now < (t : ℚ) then true else false
    | _, _ => false
  (rl', !blocked)

/-- The complete set of code points Python's `int()` strips as surrounding
whitespace (`Py_UNICODE_ISSPACE`): tab through carriage return, the
information separators 28-31, space, NEL, no-break space, and the BMP
Unicode spaces. -/
def pySpace (c : Char) : Bool :=
  let n := c.toNat
  decide (n = 32 ∨ (9 ≤ n ∧ n ≤ 13) ∨ (28 ≤ n ∧ n ≤ 31) ∨ n = 0x85 ∨ n = 0xa0 ∨
    n = 0x1680 ∨ (0x2000 ≤ n ∧ n ≤ 0x200a) ∨ n = 0x2028 ∨ n = 0x2029 ∨
    n = 0x202f ∨ n = 0x205f ∨ n = 0x3000)

/-- Continue a digit run with Python's underscore grouping: an underscore is
accepted only when a digit follows (and, by construction at the call site,
a digit precedes); anything else fails. -/
def pyDigitsGo (acc : Nat) : List Char → Option Nat
  | [] => some acc
  | '_' :: c :: rest =>
      if c.isDigit then pyDigitsGo (acc * 10 + (c.toNat - 48)) rest else none
  | c :: rest =>
      if c.isDigit then pyDigitsGo (acc * 10 + (c.toNat - 48)) rest else none

/-- A nonempty ASCII digit run with single underscores allowed strictly
between digits (`1_0` parses, `_5`, `5_`, `1__0` do not), as Python's
`int()` accepts. -/
def pyDigits? (cs : List Char) : Option Nat :=
  match cs with
  | [] => none
  | c :: rest => if c.isDigit then pyDigitsGo (c.toNat - 48) rest else none

/-- Python `int(s)` on a header-value string: strip surrounding whitespace
(the full `Py_UNICODE_ISSPACE` set, see `pySpace`), then an optional sign
followed by a digit run with underscore grouping; anything else raises
`ValueError`, modelled as `none` (so `" 5"`, `"+5"`, `"1_0"` parse and
`"abc"`, `""`, `"5.0"`, `"1__0"` do not). Non-ASCII decimal digits — which
Python's `int()` would also accept — are not modelled; the Retry-After and
rate-limit headers these claims concern carry ASCII integers. -/
def pyInt? (s : String) : Option Int :=
  match ((s.data.dropWhile pySpace).reverse.dropWhile pySpace).reverse with
  | '-' :: rest => (pyDigits? rest).map (fun n => -(n : Int))
  | '+' :: rest => (pyDigits? rest).map (fun n => (n : Int))
  | cs => (pyDigits? cs).map (fun n => (n : Int))

/-- `APIClient._update_rate_limit_info(headers)`: each header present is parsed
with `int(...)`; the two assignments run in sequence inside one `try`, so a
parse failure on `X-RateLimit-Remaining` leaves both fields untouched, while a
parse failure on `X-RateLimit-Reset` keeps the already-assigned remaining. -/
def updateRateLimitInfo (rl : RateState) (rem rst : Option String) : RateState :=
  match rem with
  | some s =>
      match pyInt? s with
      | some v =>
          let rl' : RateState := { rl with remaining := some v }
          match rst with
          | some s2 =>
              match pyInt? s2 with
              | some v2 => { rl' with reset := some v2 }
              | none => rl'
          | none => rl'
      | none => rl
  | none =>
      match rst with
      | some s2 =>
          match pyInt? s2 with
          | some v2 => { rl with reset := some v2 }
          | none => rl
      | none => rl

/-- Full mutable `APIClient` state relevant to the claims: retry
configuration (`max_retries`, `retry_delay`, `retry_backoff`,
`max_retry_delay`), the breaker, the rate limiter, and the request metrics
(`request_count`, `error_count`, `last_request_time`). -/
structure Client where
  maxRetries : Nat
  retryDelay : ℚ
  retryBackoff : ℚ
  maxRetryDelay : ℚ
  breaker : Breaker
  rate : RateState
  requestCount : Nat
  errorCount : Nat
  lastRequestTime : Option ℚ
deriving DecidableEq, Repr

/-- Rational exponentiation by a natural exponent, written out structurally so
that it evaluates inside the kernel; `powQ_eq_pow` below identifies it with
`Monoid.npow`. -/
def powQ (b : ℚ) : Nat → ℚ
  | 0 => 1
  | n + 1 => powQ b n * b

/-- `powQ` is ordinary exponentiation. -/
theorem powQ_eq_pow (b : ℚ) (n : Nat) : powQ b n = b ^ n := by
  induction n with
  | zero => simp [powQ]
  | succ k ih => simp [powQ, ih, pow_succ]

/-- Python's two-argument `min`, written as the explicit conditional so that
it evaluates inside the kernel; `minQ_eq_min` identifies it with `min`. -/
def minQ (a b : ℚ) : ℚ := if a ≤ b then a else b

/-- `minQ` is the lattice `min`. -/
theorem minQ_eq_min (a b : ℚ) : minQ a b = min a b := (min_def a b).symm

/-- The exponential-backoff delay computed inside `_make_request`:
`min(retry_delay * (retry_backoff ** attempt), max_retry_delay)`. -/
def delayFor (c : Client) (attempt : Nat) : ℚ :=
  minQ (c.retryDelay * powQ c.retryBackoff attempt) c.maxRetryDelay

/-- `delayFor` in ordinary `min`/`^` form:
`min(retry_delay * retry_backoff ^ attempt, max_retry_delay)`. -/
theorem delayFor_eq (c : Client) (attempt : Nat) :
    delayFor c attempt = min (c.retryDelay * c.retryBackoff ^ attempt) c.maxRetryDelay := by
  rw [delayFor, minQ_eq_min, powQ_eq_pow]

/-- One attempt's transport-level result: an HTTP response (status plus the
`Retry-After`, `X-RateLimit-Remaining`, `X-RateLimit-Reset` header values), an
`asyncio.TimeoutError`, or any other transport exception (connection errors
etc., all landing in the generic `except Exception` handler). -/
inductive AttemptResult where
  | response (status : Nat) (retryAfter rlRemaining rlReset : Option String)
  | timeoutErr
  | connectionErr
deriving DecidableEq, Repr

/-- The in-loop failure that the final generic `except Exception` handler wraps
into `APIError(f"Request failed after {max_retries} retries: {e}")`: the
wrapped exception was an `APIRateLimitError` (429 exhaustion), an
`APIAuthenticationError` (401), a client-error `APIError` (other 4xx), a
server-error `APIError` (5xx exhaustion), or a transport/connection
exception. -/
inductive InnerErr where
  | rateLimit
  | auth
  | clientError (status : Nat)
  | serverError (status : Nat)
  | connErr
deriving DecidableEq, Repr

/-- An error that actually escapes `_make_request` to the caller:
`circuitOpen` is the `APIError` raised by `_check_circuit_breaker`,
`rateLimitBlocked` the `APIRateLimitError` raised by `_check_rate_limit`
(both are raised before the attempt loop, outside its `try`), `timeout` the
`APITimeoutError` raised in the `except asyncio.TimeoutError` handler, and
`wrapped e` the generic `APIError` raised in the `except Exception` handler,
whose message embeds `e`. Raises inside the loop's `try` body never escape
directly: they are caught by that same `try`'s handlers. -/
inductive ApiErr where
  | circuitOpen
  | rateLimitBlocked
  | timeout
  | wrapped (inner : InnerErr)
deriving DecidableEq, Repr

/-- Exception class hierarchy of the module, as far as the surfaced errors
use it. -/
inductive ErrClass where
  | apiError
  | apiTimeoutError
  | apiAuthenticationError
  | apiRateLimitError
deriving DecidableEq, Repr

/-- The Python exception class of each error that escapes `_make_request`. -/
def ApiErr.excClass : ApiErr → ErrClass
  | .circuitOpen => .apiError
  | .rateLimitBlocked => .apiRateLimitError
  | .timeout => .apiTimeoutError
  | .wrapped _ => .apiError

/-- Result of one call to `_make_request`: the returned response status, an
escaped exception, or fuel exhaustion of the model (unreachable when the run
starts with fuel `max_retries + 1`, which matches `range(max_retries + 1)`). -/
inductive ReqResult where
  | ok (status : Nat)
  | err (e : ApiErr)
  | fuelOut
deriving DecidableEq, Repr

/-- Observable trace of the attempt loop: final client state, result, number
of transport calls issued, the sleeps performed (chronological), and the
chronological list of `success` flags passed to `_update_circuit_breaker`. -/
structure Trace where
  client : Client
  result : ReqResult
  calls : Nat
  waits : List ℚ
  reports : List Bool
deriving DecidableEq, Repr

/-- The `Retry-After` handling of the 429 branch:
`headers.get('Retry-After', '60')` then `int(...)` with `ValueError` mapped
to 60. -/
def parseRetryAfter : Option String → Int
  | none => 60
  | some s => (pyInt? s).getD 60

/-- The `for attempt in range(max_retries + 1)` loop of `_make_request`, from
attempt index `attempt` with `fuel` iterations remaining. Each iteration:
append the start time to `rate_limit_requests`, issue the transport call, and
on a response bump `request_count`/`last_request_time` and run
`_update_rate_limit_info`; then branch on the status exactly as the source
does (429, 401, other 4xx, 5xx, success). Raises inside the `try` body are
caught by `except asyncio.TimeoutError` / `except Exception` of the same
`try`, so on non-final attempts every failure kind sleeps and continues, and
on the final attempt the handler increments `error_count`, reports a breaker
failure, and re-raises (`APITimeoutError` for timeouts, a wrapping `APIError`
for everything else). The other-4xx branch reports a breaker failure before
raising on every occurrence, and the 5xx exhaustion branch reports one before
its raise, so both report twice on the final attempt. -/
def runAttempts (resp : Nat → AttemptResult) (now : ℚ) :
    Client → Nat → Nat → Trace
  | c, _, 0 => ⟨c, .fuelOut, 0, [], []⟩
  | c, attempt, fuel + 1 =>
    let c0 : Client :=
      { c with rate := { c.rate with requests := c.rate.requests ++ [now] } }
    match resp attempt with
    | .timeoutErr =>
        if attempt < c0.maxRetries then
          let t := runAttempts resp now c0 (attempt + 1) fuel
          { t with
              calls := t.calls + 1
              waits := delayFor c0 attempt :: t.waits }
        else
          let cF : Client :=
            { c0 with
                errorCount := c0.errorCount + 1
                breaker := updateCircuitBreaker c0.breaker false now }
          ⟨cF, .err .timeout, 1, [], [false]⟩
    | .connectionErr =>
        if attempt < c0.maxRetries then
          let t := runAttempts resp now c0 (attempt + 1) fuel
          { t with
              calls := t.calls + 1
              waits := delayFor c0 attempt :: t.waits }
        else
          let cF : Client :=
            { c0 with
                errorCount := c0.errorCount + 1
                breaker := updateCircuitBreaker c0.breaker false now }
          ⟨cF, .err (.wrapped .connErr), 1, [], [false]⟩
    | .response status retryAfter rem rst =>
        let c1 : Client :=
          { c0 with
              requestCount := c0.requestCount + 1
              lastRequestTime := some now
              rate := updateRateLimitInfo c0.rate rem rst }
        if status = 429 then
          let waitTime : ℚ := (parseRetryAfter retryAfter : ℚ)
          if attempt < c1.maxRetries then
            let t := runAttempts resp now c1 (attempt + 1) fuel
            { t with
                calls := t.calls + 1
                waits := waitTime :: t.waits }
          else
            let cF : Client :=
              { c1 with
                  errorCount := c1.errorCount + 1
                  breaker := updateCircuitBreaker c1.breaker false now }
            ⟨cF, .err (.wrapped .rateLimit), 1, [], [false]⟩
        else if status = 401 then
          if attempt < c1.maxRetries then
            let t := runAttempts resp now c1 (attempt + 1) fuel
            { t with
                calls := t.calls + 1
                waits := delayFor c1 attempt :: t.waits }
          else
            let cF : Client :=
              { c1 with
                  errorCount := c1.errorCount + 1
                  breaker := updateCircuitBreaker c1.breaker false now }
            ⟨cF, .err (.wrapped .auth), 1, [], [false]⟩
        else if 400 ≤ status ∧ status < 500 then
          let c2 : Client :=
            { c1 with breaker := updateCircuitBreaker c1.breaker false now }
          if attempt < c2.maxRetries then
            let t := runAttempts resp now c2 (attempt + 1) fuel
            { t with
                calls := t.calls + 1
                waits := delayFor c2 attempt :: t.waits
                reports := false :: t.reports }
          else
            let cF : Client :=
              { c2 with
                  errorCount := c2.errorCount + 1
                  breaker := updateCircuitBreaker c2.breaker false now }
            ⟨cF, .err (.wrapped (.clientError status)), 1, [], [false, false]⟩
        else if 500 ≤ status then
          if attempt < c1.maxRetries then
            let t := runAttempts resp now c1 (attempt + 1) fuel
            { t with
                calls := t.calls + 1
                waits := delayFor c1 attempt :: t.waits }
          else
            let c2 : Client :=
              { c1 with breaker := updateCircuitBreaker c1.breaker false now }
            let cF : Client :=
              { c2 with
                  errorCount := c2.errorCount + 1
                  breaker := updateCircuitBreaker c2.breaker false now }
            ⟨cF, .err (.wrapped (.serverError status)), 1, [], [false, false]⟩
        else
          let cF : Client :=
            { c1 with breaker := updateCircuitBreaker c1.breaker true now }
          ⟨cF, .ok status, 1, [], [true]⟩

/-- Full trace of one `_make_request` call, with the number of circuit-breaker
admission checks and rate-limit checks performed. -/
structure CallTrace where
  trace : Trace
  cbChecks : Nat
  rlChecks : Nat
deriving DecidableEq, Repr

/-- `APIClient._make_request`: check the circuit breaker once, check the rate
limiter once, then enter the attempt loop `for attempt in range(max_retries +
1)`. Both checks happen before the loop; a blocked breaker or rate limit
raises before any transport call. -/
def makeRequest (c : Client) (now : ℚ) (resp : Nat → AttemptResult) : CallTrace :=
  let cbRes := checkCircuitBreaker c.breaker now
  let cA : Client := { c with breaker := cbRes.1 }
  if !cbRes.2 then ⟨⟨cA, .err .circuitOpen, 0, [], []⟩, 1, 0⟩
  else
    let rlRes := checkRateLimit cA.rate now
    let cB : Client := { cA with rate := rlRes.1 }
    if !rlRes.2 then ⟨⟨cB, .err .rateLimitBlocked, 0, [], []⟩, 1, 1⟩
    else ⟨runAttempts resp now cB 0 (cB.maxRetries + 1), 1, 1⟩

/-- The statistics snapshot of `APIClient.get_stats` (the fields the claims
mention). -/
structure Stats where
  requestCount : Nat
  errorCount : Nat
  errorRate : ℚ
  circuitBreakerState : CBState
  circuitBreakerFailureCount : Nat
  rateLimitRemaining : Option Int
  rateLimitReset : Option Int
deriving DecidableEq, Repr

/-- `APIClient.get_stats`: in particular
`error_rate = error_count / max(request_count, 1)`. -/
def getStats (c : Client) : Stats :=
  { requestCount := c.requestCount
    errorCount := c.errorCount
    errorRate := (c.errorCount : ℚ) / ((max c.requestCount 1 : ℕ) : ℚ)
    circuitBreakerState := c.breaker.state
    circuitBreakerFailureCount := c.breaker.failureCount
    rateLimitRemaining := c.rate.remaining
    rateLimitReset := c.rate.reset }

/-- A client with everything at the constructor defaults except where a test
needs otherwise: breaker closed and empty rate window. -/
def baseClient : Client :=
  { maxRetries := 3
    retryDelay := 1
    retryBackoff := 2
    maxRetryDelay := 60
    breaker :=
      { enabled := true, threshold := 5, cooldown := 300, state := .closed,
        failureCount := 0, lastFailureTime := none }
    rate := { remaining := none, reset := none, requests := [], window := 60 }
    requestCount := 0
    errorCount := 0
    lastRequestTime := none }

/-- Response sequence: first attempt 503, every later attempt 200, no
rate-limit or Retry-After headers. -/
def resp503then200 : Nat → AttemptResult := fun n =>
  if n = 0 then .response 503 none none none else .response 200 none none none

/-- Response sequence: first attempt 429 with no Retry-After header, every
later attempt 200. -/
def resp429then200 : Nat → AttemptResult := fun n =>
  if n = 0 then .response 429 none none none else .response 200 none none none

/-- Every attempt gets HTTP 401 with no extra headers. -/
def respAll401 : Nat → AttemptResult := fun _ => .response 401 none none none

/-- Every attempt gets HTTP 503 with no extra headers. -/
def respAll503 : Nat → AttemptResult := fun _ => .response 503 none none none

/-- Claim C1 (code_bug evaluation): with `max_retries = 1` and every attempt
answering 401, the code makes 2 transport calls — the
`APIAuthenticationError` raised for the first 401 is caught by the same
`try`'s broad `except Exception` handler and retried after a backoff sleep —
and the error finally surfaced is the handler's generic wrapping `APIError`
(class `APIError`, not `APIAuthenticationError`), contradicting the claim
that fatal failures propagate on first occurrence with no further attempt. -/
theorem c1_fatal_401_retried_eval :
    (makeRequest { baseClient with maxRetries := 1 } 0 respAll401).trace.calls = 2 ∧
    (makeRequest { baseClient with maxRetries := 1 } 0 respAll401).trace.waits = [1] ∧
    (makeRequest { baseClient with maxRetries := 1 } 0 respAll401).trace.result =
      .err (.wrapped .auth) ∧
    (ApiErr.wrapped .auth).excClass = .apiError := by
  norm_num [makeRequest, runAttempts, checkCircuitBreaker, checkRateLimit, updateRateLimitInfo,
    updateCircuitBreaker, baseClient, respAll401, delayFor, minQ, powQ, parseRetryAfter,
    ApiErr.excClass]

/-- Claim C3 counterexample: with server-derived `remaining = 0` and
`reset = 100` still in the future at `now = 50`, `_make_request` fails the
call at once with `APIRateLimitError` — no suspension until the reset time,
no transport call, and the executor does not proceed. -/
theorem c3_rate_limit_raises_counterexample :
    (makeRequest
        { baseClient with
            rate := { baseClient.rate with remaining := some 0, reset := some 100 } }
        50 respAll503).trace.result = .err .rateLimitBlocked ∧
    (makeRequest
        { baseClient with
            rate := { baseClient.rate with remaining := some 0, reset := some 100 } }
        50 respAll503).trace.calls = 0 ∧
    (makeRequest
        { baseClient with
            rate := { baseClient.rate with remaining := some 0, reset := some 100 } }
        50 respAll503).trace.waits = [] := by
  decide

/-- Claim C4 counterexample: a call whose first attempt gets 503 and whose
retry gets 200 issues 2 transport calls but consults the circuit breaker and
the rate limiter only once — the admission check is not repeated before the
second attempt. -/
theorem c4_admission_once_counterexample :
    (makeRequest baseClient 0 resp503then200).trace.calls = 2 ∧
    (makeRequest baseClient 0 resp503then200).cbChecks = 1 ∧
    (makeRequest baseClient 0 resp503then200).rlChecks = 1 ∧
    ¬ (makeRequest baseClient 0 resp503then200).trace.calls ≤
        (makeRequest baseClient 0 resp503then200).cbChecks := by
  decide

/-- Claim C5 counterexample: in a 503-then-200 run both attempts complete,
but `_update_circuit_breaker` is invoked only once, with `success = True` for
the second attempt — the retryable 503 failure of the first attempt is never
reported to the breaker. -/
theorem c5_unreported_failure_counterexample :
    (makeRequest baseClient 0 resp503then200).trace.calls = 2 ∧
    (makeRequest baseClient 0 resp503then200).trace.reports = [true] := by
  decide

/-- Claim C6 counterexample: a 429 response with no Retry-After header is a
retryable failure that is not in the claim's override case, yet with
`retry_delay = 1`, `retry_backoff = 2`, `max_retry_delay = 60` the wait
before the next attempt is 60 — the fixed default — not
`min(1 * 2^0, 60) = 1` as the claimed formula requires. -/
theorem c6_429_default_wait_counterexample :
    (makeRequest { baseClient with maxRetries := 1 } 0 resp429then200).trace.waits = [60] ∧
    delayFor { baseClient with maxRetries := 1 } 0 = 1 := by
  norm_num [makeRequest, runAttempts, checkCircuitBreaker, checkRateLimit, updateRateLimitInfo,
    updateCircuitBreaker, baseClient, resp429then200, delayFor, minQ, powQ, parseRetryAfter]

/-- Claim C8 (code_bug evaluation): with `max_retries = 2` and every attempt
answering 503, exactly 3 transport calls occur and `get_stats` afterwards
reports `error_count = 1`, as the claim says; but the error surfaced to the
caller is the broad handler's wrapping `APIError` (`"Request failed after 2
retries: ..."`, exception class `APIError`, `status_code` attribute `None`),
not the server-error `APIError` carrying status 503 that was raised — and
caught again — inside the loop. -/
theorem c8_exhausted_503_eval :
    (makeRequest { baseClient with maxRetries := 2 } 0 respAll503).trace.calls = 3 ∧
    (getStats (makeRequest { baseClient with maxRetries := 2 } 0 respAll503).trace.client).errorCount
      = 1 ∧
    (makeRequest { baseClient with maxRetries := 2 } 0 respAll503).trace.result =
      .err (.wrapped (.serverError 503)) ∧
    (ApiErr.wrapped (.serverError 503)).excClass = .apiError ∧
    (makeRequest { baseClient with maxRetries := 2 } 0 respAll503).trace.waits = [1, 2] := by
  norm_num [makeRequest, runAttempts, checkCircuitBreaker, checkRateLimit, updateRateLimitInfo,
    updateCircuitBreaker, baseClient, respAll503, getStats, delayFor, minQ, powQ, parseRetryAfter,
    ApiErr.excClass]

/-- `_update_circuit_breaker` never changes the enabled flag. -/
theorem updateCB_enabled (cb : Breaker) (s : Bool) (now : ℚ) :
    (updateCircuitBreaker cb s now).enabled = cb.enabled := by
  simp only [updateCircuitBreaker]
  repeat' split
  all_goals rfl

/-- `_update_circuit_breaker` never changes the threshold. -/
theorem updateCB_threshold (cb : Breaker) (s : Bool) (now : ℚ) :
    (updateCircuitBreaker cb s now).threshold = cb.threshold := by
  simp only [updateCircuitBreaker]
  repeat' split
  all_goals rfl

/-- Reporting a failure to an enabled breaker increments the consecutive
failure count by one, whatever else happens. -/
theorem updateCB_false_count (cb : Breaker) (now : ℚ) (h : cb.enabled = true) :
    (updateCircuitBreaker cb false now).failureCount = cb.failureCount + 1 := by
  simp only [updateCircuitBreaker, h]
  repeat' split
  all_goals simp_all

/-- Reporting a failure to an enabled breaker refreshes the last-failure
timestamp. -/
theorem updateCB_false_last (cb : Breaker) (now : ℚ) (h : cb.enabled = true) :
    (updateCircuitBreaker cb false now).lastFailureTime = some now := by
  simp only [updateCircuitBreaker, h]
  repeat' split
  all_goals simp_all

/-- Reporting a failure to an enabled breaker whose incremented count reaches
the threshold leaves the breaker in (or moves it to) the `open` state. -/
theorem updateCB_false_opened (cb : Breaker) (now : ℚ) (h : cb.enabled = true)
    (hth : cb.threshold ≤ cb.failureCount + 1) :
    (updateCircuitBreaker cb false now).state = .opened := by
  by_cases hs : cb.state = .opened
  · simp [updateCircuitBreaker, h, hs]
  · simp [updateCircuitBreaker, h, hs, hth]

/-- A closed breaker always admits. -/
theorem checkCB_closed (cb : Breaker) (now : ℚ) (h : cb.state = .closed) :
    checkCircuitBreaker cb now = (cb, true) := by
  cases hE : cb.enabled <;> simp [checkCircuitBreaker, hE, h]

/-- An open, enabled breaker whose cooldown has not yet elapsed (strictly)
since the last failure blocks the request and changes nothing. -/
theorem checkCB_open_blocked (cb : Breaker) (now t : ℚ) (hen : cb.enabled = true)
    (hst : cb.state = .opened) (hlast : cb.lastFailureTime = some t)
    (hcool : ¬ cb.cooldown < now - t) :
    checkCircuitBreaker cb now = (cb, false) := by
  simp [checkCircuitBreaker, hen, hst, hlast, hcool]

/-- An open, enabled breaker whose cooldown has strictly elapsed transitions
to half-open and admits. -/
theorem checkCB_open_halfOpen (cb : Breaker) (now t : ℚ) (hen : cb.enabled = true)
    (hst : cb.state = .opened) (hlast : cb.lastFailureTime = some t)
    (hcool : cb.cooldown < now - t) :
    checkCircuitBreaker cb now = ({ cb with state := .halfOpen }, true) := by
  simp [checkCircuitBreaker, hen, hst, hlast, hcool]

/-- A rate state with no server-derived remaining count never blocks. -/
theorem checkRL_pass (rl : RateState) (now : ℚ) (h : rl.remaining = none) :
    (checkRateLimit rl now).2 = true := by
  simp [checkRateLimit, h]

/-- Claim C4 (amended): within one `_make_request` call the circuit breaker
is consulted exactly once and the rate limiter at most once — both checks run
before the attempt loop, and retried attempts proceed to dispatch without a
renewed admission check. -/
theorem c4_admission_checked_once (c : Client) (now : ℚ) (resp : Nat → AttemptResult) :
    (makeRequest c now resp).cbChecks = 1 ∧ (makeRequest c now resp).rlChecks ≤ 1 := by
  simp only [makeRequest]
  split
  · exact ⟨rfl, by norm_num⟩
  · split
    · exact ⟨rfl, le_refl 1⟩
    · exact ⟨rfl, le_refl 1⟩

/-- Claim C10: the statistics snapshot never divides by zero: the error-rate
denominator `max(request_count, 1)` is nonzero, with `request_count = 0` the
rate degrades to `error_count / 1`, and with positive `request_count` it is
the true ratio. -/
theorem c10_stats_error_rate_total (c : Client) :
    ((max c.requestCount 1 : ℕ) : ℚ) ≠ 0 ∧
    (c.requestCount = 0 → (getStats c).errorRate = (c.errorCount : ℚ)) ∧
    (0 < c.requestCount →
      (getStats c).errorRate = (c.errorCount : ℚ) / (c.requestCount : ℚ)) := by
  refine ⟨?_, ?_, ?_⟩
  · have h1 : 1 ≤ max c.requestCount 1 := le_max_right _ _
    exact Nat.cast_ne_zero.mpr (by omega)
  · intro h
    simp [getStats, h]
  · intro h
    have hmax : max c.requestCount 1 = c.requestCount := max_eq_left (by omega)
    simp only [getStats]
    rw [hmax]

/-- Witness for C10 at a concrete client with `request_count = 0`. -/
theorem c10_witness :
    ((max baseClient.requestCount 1 : ℕ) : ℚ) ≠ 0 ∧
    (getStats baseClient).errorRate = (baseClient.errorCount : ℚ) :=
  ⟨(c10_stats_error_rate_total baseClient).1,
    (c10_stats_error_rate_total baseClient).2.1 rfl⟩

/-- Claim C3 (amended): whenever the breaker admits the call but the
server-derived remaining count is `≤ 0` with a nonzero reset time strictly in
the future, `_make_request` raises `APIRateLimitError` immediately — the call
fails with no transport attempt and no waiting, rather than suspending until
the reset time. -/
theorem c3_rate_limit_fails_immediately (c : Client) (now : ℚ)
    (resp : Nat → AttemptResult) (r t : Int)
    (hadm : (checkCircuitBreaker c.breaker now).2 = true)
    (hrem : c.rate.remaining = some r) (hr : r ≤ 0)
    (hrst : c.rate.reset = some t) (ht : t ≠ 0) (hfut : now < (t : ℚ)) :
    (makeRequest c now resp).trace.result = .err .rateLimitBlocked ∧
    (makeRequest c now resp).trace.calls = 0 ∧
    (makeRequest c now resp).trace.waits = [] := by
  have hrl : (checkRateLimit c.rate now).2 = false := by
    simp [checkRateLimit, hrem, hrst, hr, ht, hfut]
  simp [makeRequest, hadm, hrl]

/-- Witness for the amended C3 at a concrete client. -/
theorem c3_amended_witness :
    (checkCircuitBreaker
        ({ baseClient with
            rate := { baseClient.rate with remaining := some 0, reset := some 100 } } :
          Client).breaker 50).2 = true ∧
    (makeRequest
        { baseClient with
            rate := { baseClient.rate with remaining := some 0, reset := some 100 } }
        50 respAll503).trace.result = .err .rateLimitBlocked ∧
    (makeRequest
        { baseClient with
            rate := { baseClient.rate with remaining := some 0, reset := some 100 } }
        50 respAll503).trace.calls = 0 ∧
    (makeRequest
        { baseClient with
            rate := { baseClient.rate with remaining := some 0, reset := some 100 } }
        50 respAll503).trace.waits = [] :=
  ⟨by decide,
    (c3_rate_limit_fails_immediately _ 50 respAll503 0 100 (by decide) rfl (by decide)
      rfl (by decide) (by decide)).1,
    (c3_rate_limit_fails_immediately _ 50 respAll503 0 100 (by decide) rfl (by decide)
      rfl (by decide) (by decide)).2.1,
    (c3_rate_limit_fails_immediately _ 50 respAll503 0 100 (by decide) rfl (by decide)
      rfl (by decide) (by decide)).2.2⟩

/-- `n` consecutive failure reports to the breaker
(`_update_circuit_breaker(False)` iterated `n` times, as a run of failing
attempts produces). -/
def reportFailures (cb : Breaker) (now : ℚ) : Nat → Breaker
  | 0 => cb
  | n + 1 => updateCircuitBreaker (reportFailures cb now n) false now

/-- Failure reports preserve the enabled flag. -/
theorem reportFailures_enabled (cb : Breaker) (now : ℚ) (n : Nat) :
    (reportFailures cb now n).enabled = cb.enabled := by
  induction n with
  | zero => rfl
  | succ k ih => rw [reportFailures, updateCB_enabled, ih]

/-- Failure reports preserve the threshold. -/
theorem reportFailures_threshold (cb : Breaker) (now : ℚ) (n : Nat) :
    (reportFailures cb now n).threshold = cb.threshold := by
  induction n with
  | zero => rfl
  | succ k ih => rw [reportFailures, updateCB_threshold, ih]

/-- On an enabled breaker, `n` failure reports add exactly `n` to the
consecutive failure count (nothing in `_update_circuit_breaker` ever resets
the count on a failure). -/
theorem reportFailures_count (cb : Breaker) (now : ℚ) (n : Nat)
    (h : cb.enabled = true) :
    (reportFailures cb now n).failureCount = cb.failureCount + n := by
  induction n with
  | zero => rfl
  | succ k ih =>
      rw [reportFailures, updateCB_false_count _ _ (by rw [reportFailures_enabled]; exact h),
        ih]
      omega

/-- Claim C2: on an enabled breaker, any run of `n ≥ 1` consecutive failure
reports with `n ≥ threshold` leaves the breaker `open`; and a call made
against an open, enabled breaker whose cooldown has not yet elapsed since the
last failure fails with the circuit-open `APIError` before any transport call
(zero transport calls, no waits). -/
theorem c2_breaker_opens_and_blocks (cb : Breaker) (now : ℚ) (n : Nat)
    (c : Client) (now2 t : ℚ) (resp : Nat → AttemptResult)
    (hen : cb.enabled = true) (hth : cb.threshold ≤ n) (hn : 1 ≤ n)
    (hen2 : c.breaker.enabled = true) (hst2 : c.breaker.state = .opened)
    (hlast2 : c.breaker.lastFailureTime = some t)
    (hcool2 : now2 - t ≤ c.breaker.cooldown) :
    (reportFailures cb now n).state = .opened ∧
    (makeRequest c now2 resp).trace.result = .err .circuitOpen ∧
    (makeRequest c now2 resp).trace.calls = 0 ∧
    (makeRequest c now2 resp).trace.waits = [] := by
  have hblocked : checkCircuitBreaker c.breaker now2 = (c.breaker, false) :=
    checkCB_open_blocked c.breaker now2 t hen2 hst2 hlast2 (not_lt.mpr hcool2)
  refine ⟨?_, ?_, ?_, ?_⟩
  · obtain ⟨m, hm⟩ : ∃ m, n = m + 1 := ⟨n - 1, by omega⟩
    subst hm
    rw [reportFailures]
    refine updateCB_false_opened _ _ ?_ ?_
    · rw [reportFailures_enabled]; exact hen
    · rw [reportFailures_threshold, reportFailures_count _ _ _ hen]
      omega
  · simp [makeRequest, hblocked]
  · simp [makeRequest, hblocked]
  · simp [makeRequest, hblocked]

/-- A default breaker that opened with 5 failures, the last at time 0. -/
def openBreaker : Breaker :=
  { baseClient.breaker with state := .opened, failureCount := 5, lastFailureTime := some 0 }

/-- The same breaker once it has probed and gone half-open. -/
def halfOpenBreaker : Breaker :=
  { baseClient.breaker with state := .halfOpen, failureCount := 5, lastFailureTime := some 0 }

/-- A client whose breaker is `openBreaker`. -/
def openClient : Client := { baseClient with breaker := openBreaker }

/-- Witness for C2: 5 failure reports on a fresh default breaker
(threshold 5) open it, and a client whose breaker opened at time 0 is blocked
at time 100 (cooldown 300). -/
theorem c2_witness :
    (baseClient.breaker.enabled = true ∧ baseClient.breaker.threshold ≤ 5 ∧
      100 - 0 ≤ openClient.breaker.cooldown) ∧
    (reportFailures baseClient.breaker 0 5).state = .opened ∧
    (makeRequest openClient 100 respAll503).trace.result = .err .circuitOpen ∧
    (makeRequest openClient 100 respAll503).trace.calls = 0 := by
  have hcool : (100 : ℚ) - 0 ≤ openClient.breaker.cooldown := by
    norm_num [openClient, openBreaker, baseClient]
  have h := c2_breaker_opens_and_blocks baseClient.breaker 0 5 openClient 100 0 respAll503
    (by decide) (by decide) (by decide) (by decide) (by decide) rfl hcool
  exact ⟨⟨by decide, by decide, hcool⟩, h.1, h.2.1, h.2.2.1⟩

/-- The reachability invariant of the breaker: away from `closed`, the
consecutive failure count has reached the threshold (a breaker only leaves
`closed` by opening at `failureCount ≥ threshold`, and nothing lowers the
count without also returning to `closed`). -/
def BreakerInv (cb : Breaker) : Prop :=
  cb.state ≠ .closed → cb.threshold ≤ cb.failureCount

/-- `_update_circuit_breaker` preserves the invariant. -/
theorem breakerInv_update (cb : Breaker) (s : Bool) (now : ℚ)
    (h : BreakerInv cb) : BreakerInv (updateCircuitBreaker cb s now) := by
  unfold BreakerInv at h ⊢
  simp only [updateCircuitBreaker]
  repeat' split
  all_goals intro hne
  all_goals simp_all
  all_goals omega

/-- `_check_circuit_breaker` preserves the invariant (it can only move
`open` to `half-open`, leaving the counters alone). -/
theorem breakerInv_check (cb : Breaker) (now : ℚ)
    (h : BreakerInv cb) : BreakerInv (checkCircuitBreaker cb now).1 := by
  unfold BreakerInv at h ⊢
  simp only [checkCircuitBreaker]
  repeat' split
  all_goals intro hne
  all_goals simp_all

/-- Claim C7: once the cooldown has strictly elapsed past an open state, the
next admission check moves the breaker to half-open and admits the call; a
success while half-open returns it to closed with the failure count reset to
0; a failure while half-open (using the reachability invariant
`threshold ≤ failureCount`) returns it to open with the count incremented —
not reset — and the last-failure timestamp refreshed. -/
theorem c7_halfopen_probe (cbA cbB : Breaker) (now t now2 : ℚ)
    (henA : cbA.enabled = true) (hstA : cbA.state = .opened)
    (hlastA : cbA.lastFailureTime = some t) (hcoolA : cbA.cooldown < now - t)
    (henB : cbB.enabled = true) (hstB : cbB.state = .halfOpen)
    (hinv : BreakerInv cbB) :
    checkCircuitBreaker cbA now = ({ cbA with state := .halfOpen }, true) ∧
    (updateCircuitBreaker cbB true now2).state = .closed ∧
    (updateCircuitBreaker cbB true now2).failureCount = 0 ∧
    (updateCircuitBreaker cbB false now2).state = .opened ∧
    (updateCircuitBreaker cbB false now2).failureCount = cbB.failureCount + 1 ∧
    (updateCircuitBreaker cbB false now2).lastFailureTime = some now2 := by
  have hthB : cbB.threshold ≤ cbB.failureCount := hinv (by rw [hstB]; decide)
  refine ⟨checkCB_open_halfOpen cbA now t henA hstA hlastA hcoolA, ?_, ?_, ?_, ?_, ?_⟩
  · simp [updateCircuitBreaker, henB, hstB]
  · simp [updateCircuitBreaker, henB, hstB]
  · exact updateCB_false_opened cbB now2 henB (by omega)
  · exact updateCB_false_count cbB now2 henB
  · exact updateCB_false_last cbB now2 henB

/-- Witness for C7: an open default breaker that failed at time 0, checked at
time 400 (cooldown 300), and a half-open breaker with failure count 5
(threshold 5, so the invariant holds). -/
theorem c7_witness :
    (openBreaker.cooldown < 400 - 0 ∧ BreakerInv halfOpenBreaker) ∧
    checkCircuitBreaker openBreaker 400 = ({ openBreaker with state := .halfOpen }, true) ∧
    (updateCircuitBreaker halfOpenBreaker true 400).state = .closed ∧
    (updateCircuitBreaker halfOpenBreaker false 400).state = .opened ∧
    (updateCircuitBreaker halfOpenBreaker false 400).failureCount = 6 := by
  have hcool : openBreaker.cooldown < (400 : ℚ) - 0 := by
    norm_num [openBreaker, baseClient]
  have hinv : BreakerInv halfOpenBreaker := fun _ => by decide
  have h := c7_halfopen_probe openBreaker halfOpenBreaker 400 0 400
    (by decide) (by decide) (by decide) hcool (by decide) (by decide) hinv
  exact ⟨⟨hcool, hinv⟩, h.1, h.2.1, h.2.2.2.1, h.2.2.2.2.1⟩

/-- A Retry-After value that is absent or fails Python `int()` parsing
yields the fixed default wait of 60. -/
theorem parseRetryAfter_unparseable (ra : Option String)
    (hra : ra = none ∨ ∃ s, ra = some s ∧ pyInt? s = none) :
    parseRetryAfter ra = 60 := by
  rcases hra with h | ⟨s, hs, hp⟩
  · rw [h]; rfl
  · rw [hs]; simp [parseRetryAfter, hp]

/-- Claim C9: whenever the attempt loop — at any attempt index `j` with a
retry remaining, from any client state — receives a 429 whose Retry-After
header is absent or not parseable by Python `int()`, the wait before the
next attempt is exactly 60, the fixed default, independent of the attempt
index and of the backoff configuration; in particular a full
`_make_request` call whose first attempt is such a 429 sleeps 60 first. -/
theorem c9_retry_after_default_60 (c : Client) (now : ℚ)
    (resp : Nat → AttemptResult) (j fuel : Nat) (ra rem rst : Option String)
    (c2 : Client) (now2 : ℚ) (resp2 : Nat → AttemptResult)
    (ra2 rem2 rst2 : Option String)
    (hj : j < c.maxRetries)
    (hresp : resp j = .response 429 ra rem rst)
    (hra : ra = none ∨ ∃ s, ra = some s ∧ pyInt? s = none)
    (hcb2 : c2.breaker.state = .closed) (hrem2 : c2.rate.remaining = none)
    (hmr2 : 1 ≤ c2.maxRetries)
    (hresp2 : resp2 0 = .response 429 ra2 rem2 rst2)
    (hra2 : ra2 = none ∨ ∃ s, ra2 = some s ∧ pyInt? s = none) :
    (runAttempts resp now c j (fuel + 1)).waits.head? = some 60 ∧
    (makeRequest c2 now2 resp2).trace.waits.head? = some 60 := by
  have hpr := parseRetryAfter_unparseable ra hra
  have hpr2 := parseRetryAfter_unparseable ra2 hra2
  constructor
  · simp [runAttempts, hresp, hj, hpr]
  · have h1 := checkCB_closed c2.breaker now2 hcb2
    have h2 := checkRL_pass c2.rate now2 hrem2
    have hlt2 : 0 < c2.maxRetries := hmr2
    simp [makeRequest, h1, h2, runAttempts, hresp2, hlt2, hpr2]

/-- Response sequence for the C9 witness: attempt 2 gets a 429 with an
unparseable `Retry-After: abc`, every other attempt a 503. -/
def resp429at2 : Nat → AttemptResult := fun n =>
  if n = 2 then .response 429 (some "abc") none none
  else .response 503 none none none

/-- Response sequence: first attempt a 429 with unparseable
`Retry-After: abc`, every later attempt 200. -/
def resp429abc : Nat → AttemptResult := fun n =>
  if n = 0 then .response 429 (some "abc") none none
  else .response 200 none none none

/-- Witness for C9: a 429 with `Retry-After: abc` at attempt index 2 of a
`max_retries = 4` client waits 60, and so does a first-attempt 429 on the
default client. -/
theorem c9_witness :
    (2 < 4 ∧ pyInt? "abc" = none ∧ baseClient.breaker.state = .closed ∧
      baseClient.rate.remaining = none ∧ 1 ≤ baseClient.maxRetries) ∧
    (runAttempts resp429at2 0 { baseClient with maxRetries := 4 } 2
        (2 + 1)).waits.head? = some 60 ∧
    (makeRequest baseClient 0 resp429abc).trace.waits.head? = some 60 := by
  have h := c9_retry_after_default_60 { baseClient with maxRetries := 4 } 0
    resp429at2 2 2 (some "abc") none none
    baseClient 0 resp429abc (some "abc") none none
    (by decide) rfl (Or.inr ⟨"abc", rfl, by decide⟩)
    rfl rfl (by decide) rfl (Or.inr ⟨"abc", rfl, by decide⟩)
  exact ⟨⟨by decide, by decide, rfl, rfl, by decide⟩, h.1, h.2⟩

/-- Whether an attempt outcome is a success — a response status below 400,
which makes the loop return immediately. -/
def isSuccessResult : AttemptResult → Bool
  | .response s _ _ _ => decide (s < 400)
  | _ => false

/-- One attempt's contribution to the breaker reports, per the amended claim:
a success reports `success` once; a non-429, non-401 client error reports one
failure on every occurrence and a second one on the final attempt; a 5xx
reports two failures, both only on the final attempt; a 429, a 401, a timeout
and a connection error report a single failure, only on the final attempt;
retried (non-final) 429/401/5xx/timeout/connection failures contribute
nothing. -/
def attemptReports (r : AttemptResult) (final : Bool) : List Bool :=
  match r with
  | .response s _ _ _ =>
      if s = 429 then (if final then [false] else [])
      else if s = 401 then (if final then [false] else [])
      else if 400 ≤ s ∧ s < 500 then (if final then [false, false] else [false])
      else if 500 ≤ s then (if final then [false, false] else [])
      else [true]
  | .timeoutErr => if final then [false] else []
  | .connectionErr => if final then [false] else []

/-- The breaker-report sequence of a whole run, per the amended claim:
concatenate each visited attempt's contribution, where an attempt is final
when no retry remains (`attempt = max_retries`); the loop stops after a
success or after the final attempt and otherwise proceeds to the next
attempt. -/
def reportsSpec (resp : Nat → AttemptResult) (maxRetries : Nat) :
    Nat → Nat → List Bool
  | _, 0 => []
  | attempt, fuel + 1 =>
      let final : Bool := ! decide (attempt < maxRetries)
      attemptReports (resp attempt) final ++
        (if isSuccessResult (resp attempt) || final then []
         else reportsSpec resp maxRetries (attempt + 1) fuel)

/-- The attempt loop's breaker reports are exactly `reportsSpec`, from every
attempt index, fuel and client state. -/
theorem runAttempts_reports (resp : Nat → AttemptResult) (now : ℚ) :
    ∀ (fuel attempt : Nat) (c : Client),
      (runAttempts resp now c attempt fuel).reports =
        reportsSpec resp c.maxRetries attempt fuel := by
  intro fuel
  induction fuel with
  | zero => intro attempt c; rfl
  | succ f ih =>
      intro attempt c
      rw [runAttempts.eq_def, reportsSpec.eq_def]
      cases hr : resp attempt with
      | timeoutErr =>
          by_cases hf : attempt < c.maxRetries <;>
            simp [hr, attemptReports, isSuccessResult, hf, ih]
      | connectionErr =>
          by_cases hf : attempt < c.maxRetries <;>
            simp [hr, attemptReports, isSuccessResult, hf, ih]
      | response st ra rem rst =>
          rcases Nat.lt_or_ge st 400 with hok | h400
          · have h429 : ¬ st = 429 := by omega
            have h401 : ¬ st = 401 := by omega
            have h4xx : ¬ (400 ≤ st ∧ st < 500) := by omega
            have h5xx : ¬ 500 ≤ st := by omega
            by_cases hf : attempt < c.maxRetries <;>
              simp [hr, attemptReports, isSuccessResult, h429, h401, h4xx, h5xx, hok, hf]
          · rcases Nat.lt_or_ge st 500 with h45 | h5
            · have hnok : ¬ st < 400 := by omega
              have h5xx : ¬ 500 ≤ st := by omega
              by_cases h429 : st = 429
              · by_cases hf : attempt < c.maxRetries <;>
                  simp [hr, attemptReports, isSuccessResult, h429, hnok, hf, ih]
              · by_cases h401 : st = 401
                · by_cases hf : attempt < c.maxRetries <;>
                    simp [hr, attemptReports, isSuccessResult, h429, h401, hnok, hf, ih]
                · have h4xx : 400 ≤ st ∧ st < 500 := ⟨h400, h45⟩
                  by_cases hf : attempt < c.maxRetries <;>
                    simp [hr, attemptReports, isSuccessResult, h429, h401, h4xx, hnok,
                      hf, ih]
            · have h429 : ¬ st = 429 := by omega
              have h401 : ¬ st = 401 := by omega
              have h4xx : ¬ (400 ≤ st ∧ st < 500) := by omega
              have hnok : ¬ st < 400 := by omega
              by_cases hf : attempt < c.maxRetries <;>
                simp [hr, attemptReports, isSuccessResult, h429, h401, h4xx, h5, hnok,
                  hf, ih]

/-- Claim C5 (amended): the breaker hears exactly `reportsSpec`: successes
are reported as success; failures, fatal or retryable, are reported only as
`attemptReports` describes — in particular a retried 429/401/5xx/timeout/
connection failure is never reported. The first part states it for the loop
from any attempt index and client state; the second for a whole
`_make_request` call that passes admission. -/
theorem c5_breaker_reports_follow_spec (c : Client) (now : ℚ)
    (resp : Nat → AttemptResult) (attempt fuel : Nat)
    (c2 : Client) (now2 : ℚ) (resp2 : Nat → AttemptResult)
    (hcb2 : c2.breaker.state = .closed) (hrem2 : c2.rate.remaining = none) :
    (runAttempts resp now c attempt fuel).reports =
      reportsSpec resp c.maxRetries attempt fuel ∧
    (makeRequest c2 now2 resp2).trace.reports =
      reportsSpec resp2 c2.maxRetries 0 (c2.maxRetries + 1) := by
  constructor
  · exact runAttempts_reports resp now fuel attempt c
  · have h1 := checkCB_closed c2.breaker now2 hcb2
    have h2 := checkRL_pass c2.rate now2 hrem2
    simp [makeRequest, h1, h2, runAttempts_reports resp2 now2]

/-- Witness for the amended C5 on the default client with a 503-then-200
run: the spec sequence evaluates to `[true]` — the retried 503 contributes
no report, the success one — and the trace agrees. -/
theorem c5_amended_witness :
    (baseClient.breaker.state = .closed ∧ baseClient.rate.remaining = none) ∧
    (runAttempts resp503then200 0 baseClient 0 4).reports =
      reportsSpec resp503then200 baseClient.maxRetries 0 4 ∧
    (makeRequest baseClient 0 resp503then200).trace.reports =
      reportsSpec resp503then200 baseClient.maxRetries 0 (baseClient.maxRetries + 1) ∧
    reportsSpec resp503then200 baseClient.maxRetries 0 (baseClient.maxRetries + 1) =
      [true] := by
  have h := c5_breaker_reports_follow_spec baseClient 0 resp503then200 0 4
    baseClient 0 resp503then200 rfl rfl
  exact ⟨⟨rfl, rfl⟩, h.1, h.2, by decide⟩

/-- The backoff delay depends only on the three retry-configuration fields. -/
theorem delayFor_congr (c1 c2 : Client) (h1 : c1.retryDelay = c2.retryDelay)
    (h2 : c1.retryBackoff = c2.retryBackoff)
    (h3 : c1.maxRetryDelay = c2.maxRetryDelay) : delayFor c1 = delayFor c2 := by
  funext a
  simp [delayFor, h1, h2, h3]

/-- In an all-503 run starting at attempt `a` with `a + f = max_retries`,
the sleeps performed are exactly the computed backoff delays for attempts
`a, a+1, …, max_retries - 1`. -/
theorem runAttempts_all503_waits (resp : Nat → AttemptResult) (now : ℚ)
    (hresp : ∀ i, resp i = .response 503 none none none) :
    ∀ (f a : Nat) (c : Client), a + f = c.maxRetries →
      (runAttempts resp now c a (f + 1)).waits =
        (List.range f).map (fun i => delayFor c (a + i)) := by
  intro f
  induction f with
  | zero =>
      intro a c hac
      have hnl : ¬ a < c.maxRetries := by omega
      simp [runAttempts, hresp a, hnl]
  | succ g ih =>
      intro a c hac
      have hlt : a < c.maxRetries := by omega
      rw [runAttempts.eq_def]
      simp only [hresp a]
      norm_num [hlt]
      rw [ih (a + 1)]
      swap
      · show a + 1 + g = c.maxRetries
        omega
      simp only [delayFor]
      rw [List.range_succ_eq_map, List.map_cons, List.map_map]
      congr 1
      apply List.map_congr_left
      intro i _
      simp only [Function.comp_apply]
      rw [show a + 1 + i = a + Nat.succ i by omega]

/-- The attempt outcomes whose retry sleep is the computed exponential
backoff: every response status of 400 and above except 429 (401, other 4xx,
5xx), plus transport timeouts and connection errors. A 429 is the one
failure kind with its own wait; statuses below 400 succeed and sleep
nothing. -/
def usesBackoffDelay : AttemptResult → Prop
  | .response s _ _ _ => s ≠ 429 ∧ 400 ≤ s
  | .timeoutErr => True
  | .connectionErr => True

/-- Claim C6 (amended): at any attempt index `j` with a retry remaining and
from any client state, a retried failure of any backoff kind (5xx, timeout,
connection error, 401, non-429 4xx) sleeps exactly
`min(retry_delay * retry_backoff ^ j, max_retry_delay)`; that formula is
monotonically non-decreasing in the attempt index whenever
`retry_delay ≥ 0` and `retry_backoff ≥ 1`; an admitted all-503 call sleeps
exactly the formula's values for attempts `0 … max_retries - 1`; and a 429
at any attempt index whose Retry-After parses as `v` overrides the computed
delay with a sleep of exactly `v` (a 429 with an absent or unparseable
Retry-After instead sleeps the fixed 60 — the C9 theorem). -/
theorem c6_backoff_formula_and_override (c : Client) (now : ℚ)
    (resp : Nat → AttemptResult) (j fuel n k : Nat)
    (cA : Client) (nowA : ℚ) (respA : Nat → AttemptResult)
    (c2 : Client) (now2 : ℚ) (resp2 : Nat → AttemptResult) (j2 fuel2 : Nat)
    (s : String) (v : Int) (rem rst : Option String)
    (hj : j < c.maxRetries) (hdel : usesBackoffDelay (resp j))
    (hbase : 0 ≤ c.retryDelay) (hmul : 1 ≤ c.retryBackoff) (hnk : n ≤ k)
    (hcbA : cA.breaker.state = .closed) (hremA : cA.rate.remaining = none)
    (h503 : ∀ i, respA i = .response 503 none none none)
    (hj2 : j2 < c2.maxRetries)
    (hresp2 : resp2 j2 = .response 429 (some s) rem rst)
    (hv : pyInt? s = some v) :
    (runAttempts resp now c j (fuel + 1)).waits.head? =
      some (min (c.retryDelay * c.retryBackoff ^ j) c.maxRetryDelay) ∧
    min (c.retryDelay * c.retryBackoff ^ n) c.maxRetryDelay ≤
      min (c.retryDelay * c.retryBackoff ^ k) c.maxRetryDelay ∧
    (makeRequest cA nowA respA).trace.waits =
      (List.range cA.maxRetries).map
        (fun i => min (cA.retryDelay * cA.retryBackoff ^ i) cA.maxRetryDelay) ∧
    (runAttempts resp2 now2 c2 j2 (fuel2 + 1)).waits.head? = some (v : ℚ) := by
  refine ⟨?_, ?_, ?_, ?_⟩
  · cases hr : resp j with
    | timeoutErr =>
        simp [runAttempts, hr, hj, delayFor, minQ_eq_min, powQ_eq_pow]
    | connectionErr =>
        simp [runAttempts, hr, hj, delayFor, minQ_eq_min, powQ_eq_pow]
    | response st ra0 rem0 rst0 =>
        rw [hr] at hdel
        simp only [usesBackoffDelay] at hdel
        obtain ⟨h429, h400⟩ := hdel
        by_cases h401 : st = 401
        · simp [runAttempts, hr, hj, h429, h401, delayFor, minQ_eq_min, powQ_eq_pow]
        · by_cases h45 : st < 500
          · have h4xx : 400 ≤ st ∧ st < 500 := ⟨h400, h45⟩
            simp [runAttempts, hr, hj, h429, h401, h4xx, delayFor, minQ_eq_min,
              powQ_eq_pow]
          · have h5 : 500 ≤ st := by omega
            have h4xx : ¬ (400 ≤ st ∧ st < 500) := by omega
            simp [runAttempts, hr, hj, h429, h401, h4xx, h5, delayFor, minQ_eq_min,
              powQ_eq_pow]
  · exact min_le_min
      (mul_le_mul_of_nonneg_left (pow_le_pow_right₀ hmul hnk) hbase) le_rfl
  · have h1 := checkCB_closed cA.breaker nowA hcbA
    have h2 := checkRL_pass cA.rate nowA hremA
    simp only [makeRequest, h1, h2]
    norm_num
    rw [runAttempts_all503_waits respA nowA h503 cA.maxRetries 0]
    swap
    · show 0 + cA.maxRetries = cA.maxRetries
      omega
    simp [delayFor, minQ_eq_min, powQ_eq_pow]
  · have hpr : parseRetryAfter (some s) = v := by simp [parseRetryAfter, hv]
    simp [runAttempts, hresp2, hj2, hpr]

/-- Response sequence for the C6 witness's override part: attempt 2 gets a
429 with `Retry-After: 1_0` (which Python's `int()` parses as 10), every
other attempt a 503. -/
def resp429at2ten : Nat → AttemptResult := fun n =>
  if n = 2 then .response 429 (some "1_0") none none
  else .response 503 none none none

/-- Witness for the amended C6 with default configuration (`retry_delay = 1`,
`retry_backoff = 2`, `max_retry_delay = 60`): a 503 at attempt index 1
sleeps the formula value, the formula is monotone from attempt 0 to 1, an
all-503 `max_retries = 2` call sleeps the formula values, and a 429 with
`Retry-After: 1_0` at attempt index 2 sleeps exactly 10. -/
theorem c6_amended_witness :
    (1 < 4 ∧ usesBackoffDelay (respAll503 1) ∧
      (0 : ℚ) ≤ baseClient.retryDelay ∧ (1 : ℚ) ≤ baseClient.retryBackoff ∧
      pyInt? "1_0" = some 10) ∧
    (runAttempts respAll503 0 { baseClient with maxRetries := 4 } 1
        (1 + 1)).waits.head? = some (min ((1 : ℚ) * 2 ^ 1) 60) ∧
    min ((1 : ℚ) * 2 ^ 0) 60 ≤ min ((1 : ℚ) * 2 ^ 1) 60 ∧
    (makeRequest { baseClient with maxRetries := 2 } 0 respAll503).trace.waits =
      (List.range 2).map (fun i => min ((1 : ℚ) * 2 ^ i) 60) ∧
    (runAttempts resp429at2ten 0 { baseClient with maxRetries := 4 } 2
        (0 + 1)).waits.head? = some ((10 : Int) : ℚ) ∧
    ((10 : Int) : ℚ) = 10 := by
  have h := c6_backoff_formula_and_override { baseClient with maxRetries := 4 } 0
    respAll503 1 1 0 1
    { baseClient with maxRetries := 2 } 0 respAll503
    { baseClient with maxRetries := 4 } 0 resp429at2ten 2 0
    "1_0" 10 none none
    (by decide) ⟨by norm_num, by norm_num⟩
    (by norm_num [baseClient]) (by norm_num [baseClient]) (by norm_num)
    rfl rfl (fun _ => rfl)
    (by decide) rfl (by decide)
  exact ⟨⟨by decide, ⟨by norm_num, by norm_num⟩, by norm_num [baseClient],
      by norm_num [baseClient], by decide⟩,
    h.1, h.2.1, h.2.2.1, h.2.2.2, by norm_num⟩
